import Mathlib

/-!
Shallow embedding of the walk-forward forecasting engine of the
Forecasting_model repository (directory `src/modelling/`), together with
proofs of the specified properties.

Conventions of the embedding:
* A Python float value is modelled as `Option ℚ`: `none` stands for
  NaN/null (pandas represents a null float cell as NaN), `some q` for an
  ordinary numeric value.
* A pandas DataFrame of observations ({Date, Weekly_Close}) is a
  `List ObsRow`; dates are integers (days).
* Exceptions are modelled with `Except String`; external effectful
  collaborators (model fitting, the pretrained network's forward pass,
  the data-source fetch) are parameters of the functions that call them.
* File-system side effects of the update coordinator are recorded as an
  explicit event list in the order the code performs them.
-/

deriving instance DecidableEq for Except

namespace Forecasting

/-- A Python float cell: `none` models NaN/null. -/
abbrev Val := Option ℚ

/-- One row of an input observation series: {Date, Weekly_Close}
(the tabular input of `DataProcessor.load_company_data`). -/
structure ObsRow where
  date : Int
  close : Val
deriving Repr, DecidableEq, Inhabited

/-- One output row built by `ModelTrainer.train` / `forecast_next_week`
(`model_trainer.py`): {Date, ticker, SARIMA_pred, AutoTS_pred,
TimeMOE_pred, actual}, in the order the code fills the dict. -/
structure PredRow where
  date : Int
  ticker : String
  sarimaPred : Val
  autotsPred : Val
  timemoePred : Val
  actual : Val
deriving Repr, DecidableEq

instance : Inhabited PredRow := ⟨⟨0, "", none, none, none, none⟩⟩

/-- `df['Date'].max()` over a nonempty frame of observations
(callers only apply it to nonempty data). -/
def maxDate : List ObsRow → Int
  | [] => 0
  | r :: rs => rs.foldl (fun a x => max a x.date) r.date

/-- `df['Date'].min()` over a nonempty frame of prediction rows. -/
def minDateP : List PredRow → Int
  | [] => 0
  | r :: rs => rs.foldl (fun a x => min a x.date) r.date

/-- `df['Date'].max()` over a nonempty frame of prediction rows. -/
def maxDateP : List PredRow → Int
  | [] => 0
  | r :: rs => rs.foldl (fun a x => max a x.date) r.date

/-- numpy `values[-n:]`: the last `n` elements (all of them, if fewer). -/
def lastN (n : Nat) (l : List α) : List α := l.drop (l.length - n)

/-- Insert one row into a date-sorted list (helper of `sortByDate`). -/
def insertByDate (r : ObsRow) : List ObsRow → List ObsRow
  | [] => [r]
  | x :: xs => if r.date < x.date then r :: x :: xs else x :: insertByDate r xs

/-- `df.sort_values('Date')`, as performed by
`BaseTimeSeriesModel._validate_data` (`base_model.py` line 77). -/
def sortByDate : List ObsRow → List ObsRow
  | [] => []
  | x :: xs => insertByDate x (sortByDate xs)

/-! ## RollingWindowTrainer (`utils/model_trainer.py`) -/

/-- One model's combined `train` + `predict` call at a walk-forward step,
abstracted as a function of the current training window.  `.error`
models an exception raised anywhere inside the per-model try block
(`model_trainer.py` lines 82-100); `.ok v` the returned scalar, with
unboxing of `.item()` absorbed into the value. -/
abbrev ModelStep := List ObsRow → Except String Val

/-- The fixed model dictionary of `ModelTrainer._initialize_models`:
{'SARIMA', 'AutoTS', 'TimeMOE'}, in iteration order. -/
structure Models where
  sarima : ModelStep
  autots : ModelStep
  timemoe : ModelStep

/-- The per-model except-block of the loop body: `np.nan` is recorded on
an exception, the predicted value otherwise (`model_trainer.py`
lines 81-103). -/
def stepPred (m : ModelStep) (w : List ObsRow) : Val :=
  match m w with
  | .ok v => v
  | .error _ => none

/-- One iteration of the walk-forward loop body: the predictions dict
assembled for one test row (`model_trainer.py` lines 78-106). -/
def walkStep (ms : Models) (ticker : String) (currentTrain : List ObsRow)
    (row : ObsRow) : PredRow :=
  { date := row.date
    ticker := ticker
    sarimaPred := stepPred ms.sarima currentTrain
    autotsPred := stepPred ms.autots currentTrain
    timemoePred := stepPred ms.timemoe currentTrain
    actual := row.close }

/-- The walk-forward loop of `ModelTrainer.train` (lines 77-113), carrying
its state `(results, current_train)` over the remaining test rows:
each step appends the assembled row to `results` and the just-tested
observation to `current_train`. -/
def trainLoop (ms : Models) (ticker : String) :
    List PredRow × List ObsRow → List ObsRow → List PredRow × List ObsRow
  | acc, [] => acc
  | (results, ct), r :: rs =>
      trainLoop ms ticker (results ++ [walkStep ms ticker ct r], ct ++ [r]) rs

/-- `ModelTrainer.train` (lines 63-115): runs the walk-forward loop from
`(results, current_train) = ([], train_data)` and returns the DataFrame
of per-step prediction rows. -/
def trainerTrain (ms : Models) (ticker : String)
    (trainData testData : List ObsRow) : List PredRow :=
  (trainLoop ms ticker ([], trainData) testData).1

/-- The loop state `(results, current_train)` after the first `i` test rows
have been processed by `ModelTrainer.train`'s loop. -/
def loopState (ms : Models) (ticker : String)
    (trainData testData : List ObsRow) (i : Nat) : List PredRow × List ObsRow :=
  trainLoop ms ticker ([], trainData) (testData.take i)

/-- `ModelTrainer.forecast_next_week` (lines 117-154): next week's date is
`data['Date'].max() + 7 days`, `actual` is null, and each model is
re-trained on `data.dropna(subset=['Weekly_Close'])` to predict one
step ahead (exceptions again degrade to `np.nan`). -/
def forecastNextWeek (ms : Models) (ticker : String) (data : List ObsRow) : PredRow :=
  let nextWeekDate := maxDate data + 7
  let cleanData := data.filter (fun r => r.close.isSome)
  { date := nextWeekDate
    ticker := ticker
    sarimaPred := stepPred ms.sarima cleanData
    autotsPred := stepPred ms.autots cleanData
    timemoePred := stepPred ms.timemoe cleanData
    actual := none }

/-- The walk-forward run of `train_models.py` (lines 144-151): the per-step
rows of `trainer.train(train_data, test_data)` with the forward-forecast
row of `trainer.forecast_next_week(data)` appended, where
`data = train_data ++ test_data` (the fixed split of lines 139-140). -/
def walkForwardRun (ms : Models) (ticker : String)
    (trainData testData : List ObsRow) : List PredRow :=
  trainerTrain ms ticker trainData testData
    ++ [forecastNextWeek ms ticker (trainData ++ testData)]

/-! ## IncrementalUpdateCoordinator (`update_predictions.py`) -/

/-- The fields encoded in the filename
`model_predictions_{timestamp}_{ticker}_{start_str}_{end_str}.csv`
built at `update_predictions.py` lines 210-214. -/
structure FileName where
  timestamp : Nat
  ticker : String
  startDate : Int
  endDate : Int
deriving Repr, DecidableEq

/-- A file-system side effect performed by `update_predictions_file`, in
program order: writing the new artifact (line 217) or removing the old
one (line 222). -/
inductive FsEvent where
  | write (name : FileName) (rows : List PredRow)
  | remove (path : String)
deriving Repr, DecidableEq

/-- The Python return value of `update_predictions_file`: `None` when the
update was skipped (no confirmed rows, or no new data), or the path of
the newly written artifact. -/
inductive UpdateResult where
  | skipped
  | wrote (name : FileName)
deriving Repr, DecidableEq

/-- `old_pred['actual'].last_valid_index()` (line 158): the index of the
last row whose `actual` is non-null, if any. -/
def lastValidIndex : List PredRow → Option Nat
  | [] => none
  | r :: rs =>
    match lastValidIndex rs with
    | some i => some (i + 1)
    | none => if r.actual.isSome then some 0 else none

/-- `update_predictions_file` (`update_predictions.py` lines 137-227).
`ticker` is the already-resolved instrument id (`args.ticker or
derive_ticker(pred_file)`, line 167); `fetch` abstracts
`DataProcessor.load_company_data` (line 172), whose `ValueError` is
re-raised (line 182); `timestamp` is `datetime.now()` at line 210.
Returns the Python result paired with the file-system events performed,
in order. -/
def update_predictions_file (ms : Models) (ticker : String) (predFile : String)
    (oldPred : List PredRow) (fetch : Except String (List ObsRow))
    (timestamp : Nat) : Except String (UpdateResult × List FsEvent) :=
  match lastValidIndex oldPred with
  | none => .ok (.skipped, [])
  | some cutIdx =>
    let startDate := (oldPred.getD cutIdx default).date
    match fetch with
    | .error e => .error e
    | .ok data =>
      let newData := data.filter (fun r => startDate < r.date)
      if newData.isEmpty then .ok (.skipped, [])
      else
        let trainData := data.filter (fun r => r.date ≤ startDate)
        let newResults := trainerTrain ms ticker trainData newData
        let cleanData := data.filter (fun r => r.close.isSome)
        let nextWeekRow := forecastNextWeek ms ticker cleanData
        let updated := oldPred.take (cutIdx + 1) ++ newResults ++ [nextWeekRow]
        let newName : FileName :=
          { timestamp := timestamp
            ticker := ticker
            startDate := minDateP oldPred
            endDate := maxDate newData }
        .ok (.wrote newName, [.write newName updated, .remove predFile])

/-! ## SeasonalARIMAModel (`models/sarima_model.py`) -/

/-- A cached ARIMA parameter entry `{ticker}_params.json`:
{order: (p,d,q), seasonal_order: (P,D,Q,period)}. -/
structure SarimaParams where
  order : Int × Int × Int
  seasonalOrder : Int × Int × Int × Int
deriving Repr, DecidableEq

/-- The parameter cache directory, one entry per ticker. -/
abbrev ParamCache := List (String × SarimaParams)

/-- Writing `{ticker}_params.json` (lines 99-109): overwrites any prior
entry for the same ticker, leaves every other entry untouched. -/
def cachePut (c : ParamCache) (t : String) (p : SarimaParams) : ParamCache :=
  (t, p) :: c.filter (fun q => q.1 ≠ t)

/-- The state of a `SARIMAPredictor` after `train`, together with the
resulting cache contents and whether the `auto_arima` order-search path
ran. -/
structure SarimaTrainResult where
  params : SarimaParams
  cache : ParamCache
  searchInvoked : Bool
deriving Repr, DecidableEq

/-- The slow path of `SARIMAPredictor.train` (lines 77-111): run the
`auto_arima` stepwise order search (abstracted as `autoArima`), then
persist the parameters when a ticker is given. -/
def sarimaSearch (cache : ParamCache) (ticker : Option String)
    (series : List Val) (autoArima : List Val → SarimaParams) : SarimaTrainResult :=
  let p := autoArima series
  match ticker with
  | some t => ⟨p, cachePut cache t p, true⟩
  | none => ⟨p, cache, true⟩

/-- `SARIMAPredictor.train` (lines 45-111): when a ticker is given,
`force_retrain` is false and a cache entry exists, fit directly with the
cached order/seasonal order and return (lines 62-75); otherwise run the
order search and persist its result. -/
def sarimaTrain (cache : ParamCache) (ticker : Option String)
    (forceRetrain : Bool) (series : List Val)
    (autoArima : List Val → SarimaParams) : SarimaTrainResult :=
  match ticker, forceRetrain with
  | some t, false =>
    match cache.lookup t with
    | some p => ⟨p, cache, false⟩
    | none => sarimaSearch cache (some t) series autoArima
  | tk, _ => sarimaSearch cache tk series autoArima

/-! ## PretrainedSequenceModel (`models/timemoe_model.py`) -/

/-- The loaded TimeMOE network, abstracted as the computation of the try
block of `predict` (lines 121-150): tensor conversion, z-score
normalisation, forward pass and denormalisation applied to the raw
window of the last `seq_len` values.  `.error` models an exception
raised anywhere inside that block. -/
abbrev MoeNet := List Val → Except String Val

/-- The mutable state of a `TimeMOEPredictor`: the lazily loaded network
(`self.model`), the validated data (`self.data`) and the stored price
series (`self.training_data`). -/
structure TimeMOEState where
  model : Option MoeNet
  data : Option (List ObsRow)
  trainingData : Option (List Val)

/-- A fresh `TimeMOEPredictor` (constructor, lines 18-35): nothing loaded,
nothing stored. -/
def timemoeInit : TimeMOEState := ⟨none, none, none⟩

/-- A failure of `AutoModelForCausalLM.from_pretrained`, classified by the
test `"accelerate" in str(e)` of `timemoe_model.py` line 90: either the
message mentions the missing `accelerate` dependency, or anything
else. -/
inductive LoadError where
  | accelerateMissing (msg : String)
  | other (msg : String)
deriving Repr, DecidableEq

/-- `TimeMOEPredictor.train` (lines 50-98): validate and store the data and
the date-sorted price series, then lazily load the weights only if no
model is resident yet.  `load` abstracts
`AutoModelForCausalLM.from_pretrained`: a loading failure whose message
mentions `accelerate` is re-raised as an ImportError (lines 90-96);
any other loading failure leaves `self.model = None` (lines 97-98). -/
def timemoeTrain (st : TimeMOEState) (data : List ObsRow)
    (load : Except LoadError MoeNet) : Except String TimeMOEState :=
  let sorted := sortByDate data
  let st1 : TimeMOEState :=
    { st with data := some sorted, trainingData := some (sorted.map (·.close)) }
  match st.model with
  | some _ => .ok st1
  | none =>
    match load with
    | .ok net => .ok { st1 with model := some net }
    | .error (.accelerateMissing _) => .error "Missing required package: accelerate"
    | .error (.other _) => .ok { st1 with model := none }

/-- `TimeMOEPredictor.predict` (lines 100-154): raises if the model never
loaded or no data was prepared; otherwise runs the network on the last
`seq_len` stored values, re-raising any exception of the try block
(lines 152-154) — there is no fallback here. -/
def timemoePredict (st : TimeMOEState) (seqLen : Nat := 10) : Except String Val :=
  match st.model with
  | none => .error "TimeMOE model failed to initialize"
  | some net =>
    if st.data.isNone && st.trainingData.isNone then
      .error "Data must be prepared before making predictions"
    else
      let d := match st.trainingData with
        | some td => td
        | none => (st.data.getD []).map (·.close)
      net (lastN seqLen d)

/-! ## EnsembleAutoModel (`models/autots_model.py`) -/

/-- A fitted AutoTS model, abstracted as the outcome of the inner
`model.predict()` followed by float extraction (lines 105-108):
`.ok` the point forecast, `.error` an exception raised inside the inner
try block. -/
abbrev ATModel := Except String Val

/-- The mutable state of an `AutoTSPredictor`: the fitted model
(`self.model`, `None` after a failed fit) and the stored training data
(`self.data`, kept for the fallback). -/
structure AutoTSState where
  model : Option ATModel
  data : Option (List ObsRow)

/-- A fresh `AutoTSPredictor` (constructor, lines 14-22). -/
def autotsInit : AutoTSState := ⟨none, none⟩

/-- `AutoTSPredictor.train` (lines 24-86): validate (sorting by date),
store the data for fallback predictions (line 36, before the try),
then fit; on any fitting exception set `self.model = None` instead of
raising (lines 84-86).  `fit` abstracts `AutoTS(...).fit`. -/
def autotsTrain (st : AutoTSState) (data : List ObsRow)
    (fit : List ObsRow → Except String ATModel) : AutoTSState :=
  let sorted := sortByDate data
  let st1 : AutoTSState := { st with data := some sorted }
  match fit sorted with
  | .ok m => { st1 with model := some m }
  | .error _ => { st1 with model := none }

/-- `np.mean` over possibly-NaN float values followed by `float(...)`:
NaN when the slice is empty or contains NaN, the arithmetic mean
otherwise. -/
def npMean (l : List Val) : Val :=
  if l.isEmpty then none
  else if l.any (·.isNone) then none
  else some ((l.map (fun v => v.getD 0)).sum / l.length)

/-- `AutoTSPredictor.predict` (lines 88-123): raises ValueError when the
model is untrained; on an exception of the inner predict, falls back to
the mean of the last 5 stored `Weekly_Close` values when training data
is stored, and re-raises only when it is not (lines 115-123). -/
def autotsPredict (st : AutoTSState) : Except String Val :=
  match st.model with
  | none => .error "Model must be trained before making predictions"
  | some m =>
    match m with
    | .ok v => .ok v
    | .error e =>
      match st.data with
      | some d => .ok (npMean (lastN 5 (d.map (·.close))))
      | none => .error e

/-! ## Concrete fixtures

Small concrete instances used by the witnesses and counterexamples
below. -/

/-- Three models that always succeed, with distinct constant forecasts. -/
def okModels : Models :=
  ⟨fun _ => .ok (some 1), fun _ => .ok (some 2), fun _ => .ok (some 3)⟩

/-- Models whose AutoTS member always raises while the other two always
succeed. -/
def failAutotsModels : Models :=
  ⟨fun _ => .ok (some 1), fun _ => .error "always fails", fun _ => .ok (some 3)⟩

/-- A small persisted artifact with two confirmed rows (dates 0 and 7). -/
def oldA : List PredRow :=
  [⟨0, "XYZ", some 1, some 2, some 3, some 10⟩,
   ⟨7, "XYZ", some 1, some 2, some 3, some 11⟩]

/-- A persisted artifact in which no row has a non-null `actual`. -/
def oldBad : List PredRow :=
  [⟨0, "XYZ", some 1, some 2, some 3, none⟩,
   ⟨7, "XYZ", some 1, some 2, some 3, none⟩]

/-- Freshly fetched source data with one row (date 14) past the cutoff
date 7 of `oldA`. -/
def dataA : List ObsRow := [⟨0, some 10⟩, ⟨7, some 11⟩, ⟨14, some 12⟩]

/-- Freshly fetched source data with no row past the cutoff date 7. -/
def dataNine : List ObsRow := [⟨0, some 10⟩]

/-- The filename under which the update of `oldA` with `dataA` is saved:
note `endDate = 14`, the maximum date of the new test rows. -/
def fnameA : FileName := ⟨99, "XYZ", 0, 14⟩

/-- The updated artifact produced for `oldA` with `dataA` under
`okModels`: the two confirmed rows, the new test row (date 14) and the
forward-forecast row (date 21, `actual` null). -/
def updatedA : List PredRow :=
  [⟨0, "XYZ", some 1, some 2, some 3, some 10⟩,
   ⟨7, "XYZ", some 1, some 2, some 3, some 11⟩,
   ⟨14, "XYZ", some 1, some 2, some 3, some 12⟩,
   ⟨21, "XYZ", some 1, some 2, some 3, none⟩]

/-- A small training series (dates 0, 7). -/
def trW : List ObsRow := [⟨0, some 1⟩, ⟨7, some 2⟩]

/-- A small test horizon (dates 14, 21). -/
def teW : List ObsRow := [⟨14, some 3⟩, ⟨21, some 4⟩]

/-- A six-observation series for the model-level fixtures. -/
def dataB : List ObsRow :=
  [⟨0, some 10⟩, ⟨7, some 11⟩, ⟨14, some 12⟩, ⟨21, some 13⟩,
   ⟨28, some 14⟩, ⟨35, some 15⟩]

/-- A TimeMOE network whose forward pass always raises. -/
def boomNet : MoeNet := fun _ => .error "boom"

/-- A TimeMOE predictor state after training on `dataB` with loaded
weights whose forward pass always raises. -/
def moeStX : TimeMOEState :=
  ⟨some boomNet, some dataB, some (dataB.map (·.close))⟩

/-- The TimeMOE predictor state after a `train` call on `dataB` whose
weight loading failed (without mentioning `accelerate`). -/
def moeStY : TimeMOEState :=
  ⟨none, some (sortByDate dataB), some ((sortByDate dataB).map (·.close))⟩

/-- A cached ARIMA parameter entry and the cache holding it. -/
def paramsX : SarimaParams := ⟨(1, 0, 1), (0, 1, 1, 52)⟩

/-- A parameter cache with one entry for ticker XYZ. -/
def cacheX : ParamCache := [("XYZ", paramsX)]

/-- An order search that would return different parameters than the
cached ones (so a cache hit is observable). -/
def searchX : List Val → SarimaParams := fun _ => ⟨(2, 1, 2), (1, 1, 1, 52)⟩

/-- An AutoTS fit that succeeds but whose fitted model's inner predict
always raises. -/
def fitW : List ObsRow → Except String ATModel :=
  fun _ => .ok (.error "inner predict failed")

/-! ## Helper lemmas -/

theorem trainLoop_snd (ms : Models) (t : String) :
    ∀ (te : List ObsRow) (res : List PredRow) (ct : List ObsRow),
      (trainLoop ms t (res, ct) te).2 = ct ++ te := by
  intro te
  induction te with
  | nil => intro res ct; simp [trainLoop]
  | cons r rs ih => intro res ct; simp [trainLoop, ih]

theorem trainLoop_fst_length (ms : Models) (t : String) :
    ∀ (te : List ObsRow) (res : List PredRow) (ct : List ObsRow),
      (trainLoop ms t (res, ct) te).1.length = res.length + te.length := by
  intro te
  induction te with
  | nil => intro res ct; simp [trainLoop]
  | cons r rs ih => intro res ct; simp [trainLoop, ih]; omega

theorem trainLoop_fst_mem (ms : Models) (t : String) (P : PredRow → Prop) :
    ∀ (te : List ObsRow) (res : List PredRow) (ct : List ObsRow),
      (∀ p ∈ res, P p) →
      (∀ (w : List ObsRow) (r : ObsRow), r ∈ te → P (walkStep ms t w r)) →
      ∀ p ∈ (trainLoop ms t (res, ct) te).1, P p := by
  intro te
  induction te with
  | nil => intro res ct hres _ p hp; exact hres p hp
  | cons r rs ih =>
    intro res ct hres hstep p hp
    refine ih _ _ ?_ (fun w x hx => hstep w x (List.mem_cons_of_mem r hx)) p hp
    intro q hq
    rcases List.mem_append.mp hq with hq | hq
    · exact hres q hq
    · rcases List.mem_singleton.mp hq with rfl
      exact hstep ct r (List.mem_cons_self r rs)

theorem trainerTrain_length (ms : Models) (t : String) (tr te : List ObsRow) :
    (trainerTrain ms t tr te).length = te.length := by
  simpa [trainerTrain] using trainLoop_fst_length ms t te [] tr

theorem lastValidIndex_lt_length :
    ∀ (l : List PredRow) (c : Nat), lastValidIndex l = some c → c < l.length := by
  intro l
  induction l with
  | nil => intro c h; simp [lastValidIndex] at h
  | cons r rs ih =>
    intro c h
    simp only [lastValidIndex] at h
    cases hrs : lastValidIndex rs with
    | some i =>
      rw [hrs] at h
      cases h
      have := ih i hrs
      simp only [List.length_cons]
      omega
    | none =>
      rw [hrs] at h
      by_cases ha : r.actual.isSome
      · simp [ha] at h
        simp [← h]
      · simp [ha] at h

theorem foldl_max_date :
    ∀ (l : List ObsRow) (d m : Int), d ≤ m → (∀ r ∈ l, r.date ≤ m) →
      (m = d ∨ ∃ r ∈ l, r.date = m) →
      l.foldl (fun a x => max a x.date) d = m := by
  intro l
  induction l with
  | nil =>
    intro d m hd _ hex
    rcases hex with h | ⟨r, hr, _⟩
    · simp [h]
    · exact absurd hr (List.not_mem_nil r)
  | cons x xs ih =>
    intro d m hd hub hex
    simp only [List.foldl_cons]
    apply ih
    · exact max_le hd (hub x (List.mem_cons_self x xs))
    · intro r hr; exact hub r (List.mem_cons_of_mem x hr)
    · rcases hex with h | ⟨r, hr, hre⟩
      · left
        subst h
        exact (max_eq_left (hub x (List.mem_cons_self x xs))).symm
      · rcases List.mem_cons.mp hr with rfl | hr'
        · left
          rw [hre]
          exact (max_eq_right hd).symm
        · right; exact ⟨r, hr', hre⟩

theorem maxDate_eq (l : List ObsRow) (lst : ObsRow) (hmem : lst ∈ l)
    (hub : ∀ r ∈ l, r.date ≤ lst.date) : maxDate l = lst.date := by
  cases l with
  | nil => exact absurd hmem (List.not_mem_nil _)
  | cons x xs =>
    simp only [maxDate]
    apply foldl_max_date
    · exact hub x (List.mem_cons_self x xs)
    · intro r hr; exact hub r (List.mem_cons_of_mem x hr)
    · rcases List.mem_cons.mp hmem with rfl | h
      · left; rfl
      · right; exact ⟨lst, h, rfl⟩

/-! ## Claim theorems -/

/-- C2: for every valid input series and test horizon of `T` rows, the
walk-forward run (per-step predictions plus the forward forecast)
produces exactly `T + 1` output rows, and the final row is the
forward-forecast row whose Date equals the last observed Date plus
7 days and whose `actual` is null. -/
theorem walk_forward_produces_T_plus_one_rows (ms : Models) (t : String)
    (tr te : List ObsRow) (lst : ObsRow)
    (hlast : te.getLast? = some lst)
    (hub : ∀ r ∈ tr ++ te, r.date ≤ lst.date) :
    (walkForwardRun ms t tr te).length = te.length + 1 ∧
    (walkForwardRun ms t tr te).getLast? =
      some (forecastNextWeek ms t (tr ++ te)) ∧
    (forecastNextWeek ms t (tr ++ te)).date = lst.date + 7 ∧
    (forecastNextWeek ms t (tr ++ te)).actual = none := by
  have hmem : lst ∈ tr ++ te := by
    have h1 : lst ∈ te.getLast? := Option.mem_def.mpr hlast
    obtain ⟨hne, heq⟩ := List.mem_getLast?_eq_getLast h1
    rw [heq]
    exact List.mem_append_right tr (List.getLast_mem hne)
  refine ⟨?_, ?_, ?_, rfl⟩
  · simp [walkForwardRun, trainerTrain_length]
  · exact List.getLast?_concat _
  · show maxDate (tr ++ te) + 7 = lst.date + 7
    rw [maxDate_eq (tr ++ te) lst hmem hub]

/-- Witness for C2 on a concrete series: two training rows, two test rows,
four output rows; forward-forecast row dated 21 + 7 = 28, `actual`
null. -/
theorem walk_forward_produces_T_plus_one_rows_witness :
    (walkForwardRun okModels "XYZ" trW teW).length = teW.length + 1 ∧
    (walkForwardRun okModels "XYZ" trW teW).getLast? =
      some (forecastNextWeek okModels "XYZ" (trW ++ teW)) ∧
    (forecastNextWeek okModels "XYZ" (trW ++ teW)).date = (21 : Int) + 7 ∧
    (forecastNextWeek okModels "XYZ" (trW ++ teW)).actual = none :=
  walk_forward_produces_T_plus_one_rows okModels "XYZ" trW teW ⟨21, some 4⟩
    rfl (by decide)

/-- C7: a per-model exception at a walk-forward step is caught at the
trainer boundary and recorded as a missing value for that model and row
only; the loop is never aborted, so a model that always fails yields an
entirely-null prediction column while the other model columns and the
`actual` column are fully populated. -/
theorem per_model_failure_isolated (ms : Models) (t : String)
    (tr te : List ObsRow)
    (hS : ∀ w, ∃ q : ℚ, ms.sarima w = .ok (some q))
    (hA : ∀ w, ∃ e : String, ms.autots w = .error e)
    (hM : ∀ w, ∃ q : ℚ, ms.timemoe w = .ok (some q))
    (hact : ∀ r ∈ te, r.close.isSome) :
    (trainerTrain ms t tr te).length = te.length ∧
    ∀ row ∈ trainerTrain ms t tr te,
      row.autotsPred = none ∧ row.sarimaPred.isSome ∧
      row.timemoePred.isSome ∧ row.actual.isSome := by
  refine ⟨trainerTrain_length ms t tr te, fun row hrow => ?_⟩
  refine trainLoop_fst_mem ms t
    (fun row => row.autotsPred = none ∧ row.sarimaPred.isSome ∧
      row.timemoePred.isSome ∧ row.actual.isSome)
    te [] tr (by simp) ?_ row hrow
  intro w r hr
  obtain ⟨qs, hqs⟩ := hS w
  obtain ⟨ea, hea⟩ := hA w
  obtain ⟨qm, hqm⟩ := hM w
  exact ⟨by simp [walkStep, stepPred, hea], by simp [walkStep, stepPred, hqs],
    by simp [walkStep, stepPred, hqm], by simpa [walkStep] using hact r hr⟩

/-- Witness for C7: with an always-failing AutoTS member, both output rows
have a null AutoTS prediction and populated SARIMA/TimeMOE/actual
entries. -/
theorem per_model_failure_isolated_witness :
    (trainerTrain failAutotsModels "XYZ" trW teW).length = teW.length ∧
    ∀ row ∈ trainerTrain failAutotsModels "XYZ" trW teW,
      row.autotsPred = none ∧ row.sarimaPred.isSome ∧
      row.timemoePred.isSome ∧ row.actual.isSome :=
  per_model_failure_isolated failAutotsModels "XYZ" trW teW
    (fun _ => ⟨1, rfl⟩) (fun _ => ⟨"always fails", rfl⟩) (fun _ => ⟨3, rfl⟩)
    (by decide)

/-- C8: throughout every walk-forward run, the expanding training window
grows by exactly one row (the just-tested observation, appended in
order) at each step and never shrinks: after step `i` its size equals
the initial training size plus `i`. -/
theorem expanding_window_grows_by_one (ms : Models) (t : String)
    (tr te : List ObsRow) (i : Nat) (h : i < te.length) :
    (loopState ms t tr te (i + 1)).2 = (loopState ms t tr te i).2 ++ [te[i]] ∧
    (loopState ms t tr te i).2.length = tr.length + i := by
  have hs : ∀ j, (loopState ms t tr te j).2 = tr ++ te.take j :=
    fun j => trainLoop_snd ms t (te.take j) [] tr
  constructor
  · rw [hs, hs, List.take_succ, List.getElem?_eq_getElem h]
    simp
  · rw [hs]
    simp only [List.length_append, List.length_take]
    omega

/-- Witness for C8 at step 1 of a two-row horizon: the window grows from
3 rows to 4 by appending the second test row. -/
theorem expanding_window_grows_by_one_witness :
    (loopState okModels "XYZ" trW teW (1 + 1)).2 =
      (loopState okModels "XYZ" trW teW 1).2 ++ [teW[1]] ∧
    (loopState okModels "XYZ" trW teW 1).2.length = trW.length + 1 :=
  expanding_window_grows_by_one okModels "XYZ" trW teW 1 (by decide)

/-- C1: every incremental update that writes a new artifact keeps rows 0
through the cutoff row byte-for-byte identical to the original
artifact; only rows after the cutoff are recomputed or replaced. -/
theorem update_rows_before_cutoff_unchanged
    (ms : Models) (t pf : String) (old : List PredRow)
    (fetch : Except String (List ObsRow)) (ts c : Nat)
    (nf : FileName) (evs : List FsEvent)
    (hc : lastValidIndex old = some c)
    (hw : update_predictions_file ms t pf old fetch ts = .ok (.wrote nf, evs)) :
    ∃ rest, evs = [.write nf (old.take (c + 1) ++ rest), .remove pf] ∧
      (old.take (c + 1) ++ rest).take (c + 1) = old.take (c + 1) := by
  have hlen : c < old.length := lastValidIndex_lt_length old c hc
  have htk : (old.take (c + 1)).length = c + 1 := by
    simp only [List.length_take]
    omega
  cases fetch with
  | error e => simp [update_predictions_file, hc] at hw
  | ok data =>
    by_cases hemp :
        (data.filter (fun r => (old.getD c default).date < r.date)).isEmpty
    · simp only [update_predictions_file, hc] at hw
      rw [if_pos hemp] at hw
      simp at hw
    · simp only [update_predictions_file, hc, hemp, Bool.false_eq_true,
        if_false, Except.ok.injEq, Prod.mk.injEq, UpdateResult.wrote.injEq] at hw
      obtain ⟨hnf, hevs⟩ := hw
      refine ⟨trainerTrain ms t (data.filter (fun r => r.date ≤ (old.getD c default).date))
          (data.filter (fun r => (old.getD c default).date < r.date)) ++
          [forecastNextWeek ms t (data.filter (fun r => r.close.isSome))],
        ?_, List.take_left' htk⟩
      rw [← hevs, ← hnf]
      simp [List.append_assoc]

/-- Witness for C1 on the concrete update of `oldA` with `dataA`: the
written artifact's first two rows coincide with the original's. -/
theorem update_rows_before_cutoff_unchanged_witness :
    ∃ rest,
      ([FsEvent.write fnameA updatedA, FsEvent.remove "old.csv"]) =
        [FsEvent.write fnameA (oldA.take (1 + 1) ++ rest), FsEvent.remove "old.csv"] ∧
      (oldA.take (1 + 1) ++ rest).take (1 + 1) = oldA.take (1 + 1) :=
  update_rows_before_cutoff_unchanged okModels "XYZ" "old.csv" oldA
    (.ok dataA) 99 1 fnameA [FsEvent.write fnameA updatedA, FsEvent.remove "old.csv"]
    rfl rfl

/-- C4 (counterexample): on an artifact whose `actual` column is entirely
null, `update_predictions_file` does not raise: it returns the no-op
result `None` and performs no file-system action, contradicting the
claim that a `NoConfirmedDataError` is propagated to the caller. -/
theorem no_confirmed_actuals_cx :
    update_predictions_file okModels "XYZ" "old.csv" oldBad (.ok dataA) 99 =
      .ok (.skipped, []) ∧
    ∀ e : String,
      update_predictions_file okModels "XYZ" "old.csv" oldBad (.ok dataA) 99 ≠
        .error e := by
  refine ⟨rfl, fun e h => ?_⟩
  simp only [show update_predictions_file okModels "XYZ" "old.csv" oldBad
      (.ok dataA) 99 = Except.ok (UpdateResult.skipped, ([] : List FsEvent))
    from rfl] at h
  exact Except.noConfusion h

/-- C4 (amended): when no row of the persisted table has a non-null
`actual`, the update is skipped — the function logs a warning and
returns the no-op result `None` with no file written or removed,
rather than raising an error. -/
theorem no_confirmed_actuals_skips (ms : Models) (t pf : String)
    (old : List PredRow) (fetch : Except String (List ObsRow)) (ts : Nat)
    (h : lastValidIndex old = none) :
    update_predictions_file ms t pf old fetch ts = .ok (.skipped, []) := by
  simp [update_predictions_file, h]

/-- Witness for the amended C4 on the all-null artifact `oldBad`. -/
theorem no_confirmed_actuals_skips_witness :
    update_predictions_file okModels "XYZ" "old.csv" oldBad (.ok dataA) 99 =
      .ok (.skipped, []) :=
  no_confirmed_actuals_skips okModels "XYZ" "old.csv" oldBad (.ok dataA) 99 rfl

/-- C5 (counterexample): on the concrete update of `oldA` with `dataA`,
the new filename encodes end date 14 — the maximum Date of the newly
observed test rows — while the maximum Date across the updated rows
(which include the forward-forecast row) is 21, so the filename does
not encode the maximum Date across the updated rows. -/
theorem update_filename_end_date_cx :
    update_predictions_file okModels "XYZ" "old.csv" oldA (.ok dataA) 99 =
      .ok (.wrote fnameA, [.write fnameA updatedA, .remove "old.csv"]) ∧
    fnameA.endDate = 14 ∧
    maxDateP updatedA = 21 ∧
    maxDateP updatedA ≠ fnameA.endDate :=
  ⟨rfl, rfl, by decide, by decide⟩

/-- C5 (amended): every incremental update that persists an artifact saves
it under a filename encoding the instrument id, the current timestamp,
the minimum Date across the previous artifact's rows (equal to the
minimum across the updated rows when dates ascend) and the maximum
Date across the newly observed test rows — not the forward-forecast
row, whose Date is 7 days later; the previous artifact's file is
removed only after the new file has been written. -/
theorem update_filename_encoding
    (ms : Models) (t pf : String) (old : List PredRow)
    (data : List ObsRow) (ts c : Nat) (nf : FileName) (evs : List FsEvent)
    (hc : lastValidIndex old = some c)
    (hw : update_predictions_file ms t pf old (.ok data) ts = .ok (.wrote nf, evs)) :
    nf = { timestamp := ts, ticker := t, startDate := minDateP old,
           endDate := maxDate (data.filter
             (fun r => (old.getD c default).date < r.date)) } ∧
    ∃ rows, evs = [.write nf rows, .remove pf] := by
  by_cases hemp :
      (data.filter (fun r => (old.getD c default).date < r.date)).isEmpty
  · simp only [update_predictions_file, hc] at hw
    rw [if_pos hemp] at hw
    simp at hw
  · simp only [update_predictions_file, hc, hemp, Bool.false_eq_true,
      if_false, Except.ok.injEq, Prod.mk.injEq, UpdateResult.wrote.injEq] at hw
    obtain ⟨hnf, hevs⟩ := hw
    exact ⟨hnf.symm, ⟨_, by rw [← hevs, ← hnf]⟩⟩

/-- Witness for the amended C5 on the concrete update of `oldA` with
`dataA`: timestamp 99, ticker XYZ, start date 0, end date 14, and the
write event precedes the remove event. -/
theorem update_filename_encoding_witness :
    fnameA = { timestamp := 99, ticker := "XYZ", startDate := minDateP oldA,
               endDate := maxDate (dataA.filter
                 (fun r => (oldA.getD 1 default).date < r.date)) } ∧
    ∃ rows, ([FsEvent.write fnameA updatedA, FsEvent.remove "old.csv"]) =
      [FsEvent.write fnameA rows, FsEvent.remove "old.csv"] :=
  update_filename_encoding okModels "XYZ" "old.csv" oldA dataA 99 1 fnameA
    [FsEvent.write fnameA updatedA, FsEvent.remove "old.csv"] rfl rfl

/-- C9: when the freshly fetched source data contains no rows with Date
after the cutoff date, the coordinator performs no write, deletes
nothing, and returns the distinguished no-op result `None` rather than
an error. -/
theorem no_new_data_is_noop (ms : Models) (t pf : String)
    (old : List PredRow) (data : List ObsRow) (ts c : Nat)
    (hc : lastValidIndex old = some c)
    (hemp : data.filter (fun r => (old.getD c default).date < r.date) = []) :
    update_predictions_file ms t pf old (.ok data) ts = .ok (.skipped, []) := by
  have hemp2 :
      (data.filter (fun r => (old.getD c default).date < r.date)).isEmpty = true := by
    rw [hemp]
    rfl
  simp only [update_predictions_file, hc]
  rw [if_pos hemp2]

/-- Witness for C9: fetched data whose single row (date 0) is not past the
cutoff date 7 of `oldA` yields the no-op result with no events. -/
theorem no_new_data_is_noop_witness :
    update_predictions_file okModels "XYZ" "old.csv" oldA (.ok dataNine) 99 =
      .ok (.skipped, []) :=
  no_new_data_is_noop okModels "XYZ" "old.csv" oldA dataNine 99 1 rfl rfl

/-- C3 (counterexample): on a TimeMOE state trained with six prior
observations and a loaded network whose forward pass raises, `predict`
re-raises the failure and never returns a value — contradicting the
claim that with at least 5 prior observations their arithmetic mean is
returned; and after a weight-loading failure, a subsequent `predict`
raises as well. -/
theorem timemoe_no_mean_fallback_cx :
    timemoePredict moeStX 10 = .error "boom" ∧
    (moeStX.trainingData.getD []).length = 6 ∧
    (∀ v : Val, timemoePredict moeStX 10 ≠ .ok v) ∧
    timemoeTrain timemoeInit dataB (.error (.other "weights unavailable")) =
      .ok moeStY ∧
    timemoePredict moeStY 10 = .error "TimeMOE model failed to initialize" := by
  refine ⟨rfl, by decide, fun v h => ?_, rfl, rfl⟩
  simp only [show timemoePredict moeStX 10 = .error "boom" from rfl] at h
  exact Except.noConfusion h

/-- C3 (amended): if the forward pass of a loaded TimeMOE network fails,
`predict` propagates the failure to the caller regardless of how many
prior observations are stored; and if weight loading failed (leaving no
model resident), `predict` raises — the TimeMOE predictor has no
arithmetic-mean fallback. -/
theorem timemoe_failure_propagates (st : TimeMOEState) (net : MoeNet)
    (td : List Val) (e : String) (n : Nat)
    (hm : st.model = some net) (htd : st.trainingData = some td)
    (hfail : net (lastN n td) = .error e) :
    timemoePredict st n = .error e ∧
    ∀ st2 : TimeMOEState, st2.model = none →
      timemoePredict st2 n = .error "TimeMOE model failed to initialize" := by
  constructor
  · simp [timemoePredict, hm, htd, hfail]
  · intro st2 h2
    simp [timemoePredict, h2]

/-- Witness for the amended C3 on the concrete failing state `moeStX`. -/
theorem timemoe_failure_propagates_witness :
    timemoePredict moeStX 10 = .error "boom" ∧
    ∀ st2 : TimeMOEState, st2.model = none →
      timemoePredict st2 10 = .error "TimeMOE model failed to initialize" :=
  timemoe_failure_propagates moeStX boomNet (List.map ObsRow.close dataB)
    "boom" 10 rfl rfl rfl

/-- C6: a SARIMA `train` call with a cached parameter entry and
`force_retrain` false never invokes the order-search path: the model is
fitted with the cached order and seasonal order, the cache survives
unchanged, and a repeated `train` call behaves identically. -/
theorem sarima_cache_fast_path_idempotent (cache : ParamCache) (t : String)
    (p : SarimaParams) (series : List Val)
    (autoArima : List Val → SarimaParams)
    (h : cache.lookup t = some p) :
    sarimaTrain cache (some t) false series autoArima = ⟨p, cache, false⟩ ∧
    sarimaTrain (sarimaTrain cache (some t) false series autoArima).cache
      (some t) false series autoArima = ⟨p, cache, false⟩ := by
  have h1 : sarimaTrain cache (some t) false series autoArima = ⟨p, cache, false⟩ := by
    simp [sarimaTrain, h]
  exact ⟨h1, by rw [h1]; simp [sarimaTrain, h]⟩

/-- Witness for C6 on a one-entry cache: the cached parameters are reused,
the search flag stays false, and the cache is unchanged across two
successive `train` calls. -/
theorem sarima_cache_fast_path_idempotent_witness :
    sarimaTrain cacheX (some "XYZ") false [some 1, some 2] searchX =
      ⟨paramsX, cacheX, false⟩ ∧
    sarimaTrain (sarimaTrain cacheX (some "XYZ") false [some 1, some 2] searchX).cache
      (some "XYZ") false [some 1, some 2] searchX = ⟨paramsX, cacheX, false⟩ :=
  sarima_cache_fast_path_idempotent cacheX "XYZ" paramsX [some 1, some 2]
    searchX rfl

/-- C10: after a successful AutoTS `train` (which stores the training
data), a failing inner prediction step does not raise: `predict`
returns the arithmetic mean of the last 5 stored `Weekly_Close` values
as a float, and re-raises only when no stored data is available. -/
theorem autots_fallback_mean (st0 : AutoTSState) (data : List ObsRow)
    (fit : List ObsRow → Except String ATModel) (e : String)
    (hfit : fit (sortByDate data) = .ok (.error e)) :
    autotsPredict (autotsTrain st0 data fit) =
      .ok (npMean (lastN 5 ((sortByDate data).map (·.close)))) ∧
    ∀ st : AutoTSState, st.model = some (.error e) → st.data = none →
      autotsPredict st = .error e := by
  constructor
  · simp [autotsTrain, autotsPredict, hfit]
  · intro st hm hd
    simp [autotsPredict, hm, hd]

/-- Witness for C10 on the six-row series `dataB` and a fit whose inner
predict always fails: the fallback mean of the last 5 values is
returned. -/
theorem autots_fallback_mean_witness :
    autotsPredict (autotsTrain autotsInit dataB fitW) =
      .ok (npMean (lastN 5 ((sortByDate dataB).map (·.close)))) ∧
    ∀ st : AutoTSState, st.model = some (.error "inner predict failed") →
      st.data = none → autotsPredict st = .error "inner predict failed" :=
  autots_fallback_mean autotsInit dataB fitW "inner predict failed" rfl

end Forecasting
